import Mathlib

/-!
Verification of the authentication and session-security logic of `src/app.py`:
password strength rules, bcrypt wrappers, the login/lockout state machine,
the request gate (`login_required`), logout, and the password-reset flow.
Timestamps are modelled as natural numbers (seconds); the database tables
`candidato` and `recuperacao_senha` are modelled as lists of records; the
external bcrypt library is modelled as an abstract interface `Bcrypt` whose
`checkpw` may fail (the `try/except` in `verificar_senha` catches that).
-/

namespace FaseFinal

/-- Abstract model of the external bcrypt library: `hashpw` takes the
plaintext and a salt (produced by `gensalt`, modelled as an input), `checkpw`
may raise on a malformed digest, modelled as `Except`. -/
structure Bcrypt where
  hashpw : String → Nat → String
  checkpw : String → String → Except Unit Bool

/-- `hash_senha` from app.py: bcrypt hash of the password with a fresh salt
(the salt drawn by `gensalt` is passed explicitly here). -/
def hash_senha (b : Bcrypt) (salt : Nat) (senha : String) : String :=
  b.hashpw senha salt

/-- `verificar_senha` from app.py: `bcrypt.checkpw` wrapped in
`try/except: return False`. -/
def verificar_senha (b : Bcrypt) (senha hash_armazenado : String) : Bool :=
  match b.checkpw senha hash_armazenado with
  | .ok r => r
  | .error _ => false

/-- Character class `[A-Z]` of the regex in `validar_senha_forte`. -/
def isMaiuscula (c : Char) : Bool := 'A' ≤ c && c ≤ 'Z'

/-- Character class `[a-z]`. -/
def isMinuscula (c : Char) : Bool := 'a' ≤ c && c ≤ 'z'

/-- Character class `\d` (decimal digits). -/
def isDigito (c : Char) : Bool := '0' ≤ c && c ≤ '9'

/-- The special-character class of `validar_senha_forte`
(`!@#$%^&*(),.?":` followed by the two brace characters and `|<>`). -/
def caracteresEspeciais : List Char :=
  ['!', '@', '#', '$', '%', '^', '&', '*', '(', ')', ',', '.', '?', '\"', ':',
   Char.ofNat 123, Char.ofNat 125, '|', '<', '>']

/-- Membership in the special-character class. -/
def isEspecial (c : Char) : Bool := caracteresEspeciais.contains c

/-- `validar_senha_forte` from app.py: returns `(ok, reason)`, checking the
rules in the source order: length, uppercase, lowercase, digit, special. -/
def validar_senha_forte (senha : String) : Bool × String :=
  if senha.length < 8 then
    (false, "Senha deve ter no mínimo 8 caracteres")
  else if !senha.toList.any isMaiuscula then
    (false, "Senha deve ter pelo menos uma letra maiúscula")
  else if !senha.toList.any isMinuscula then
    (false, "Senha deve ter pelo menos uma letra minúscula")
  else if !senha.toList.any isDigito then
    (false, "Senha deve ter pelo menos um número")
  else if !senha.toList.any isEspecial then
    (false, "Senha deve ter pelo menos um caractere especial")
  else
    (true, "Senha válida")

/-- Character class `[a-zA-Z0-9._%+-]` of the local part of the email regex. -/
def isCharLocal (c : Char) : Bool :=
  isMaiuscula c || isMinuscula c || isDigito c ||
  c == '.' || c == '_' || c == '%' || c == '+' || c == '-'

/-- Character class `[a-zA-Z0-9.-]` of the domain part. -/
def isCharDominio (c : Char) : Bool :=
  isMaiuscula c || isMinuscula c || isDigito c || c == '.' || c == '-'

/-- Character class `[a-zA-Z]`. -/
def isLetra (c : Char) : Bool := isMaiuscula c || isMinuscula c

/-- `validar_email` from app.py: the anchored regex
`[a-zA-Z0-9._%+-]+@[a-zA-Z0-9.-]+\.[a-zA-Z]` followed by at least one more
letter, to the end of the string.  Since neither class contains `@`, the local
part is exactly the text before the first `@`; since the trailing letter block
must reach the end, the literal dot of the pattern is the last dot after the
`@`. -/
def validar_email (email : String) : Bool :=
  let cs := email.toList
  let l := cs.takeWhile (fun c => c ≠ '@')
  if l.length = cs.length then false
  else
    let r := cs.drop (l.length + 1)
    let tldRev := r.reverse.takeWhile (fun c => c ≠ '.')
    if tldRev.length = r.length then false
    else
      let tld := tldRev.reverse
      let d := r.take (r.length - tld.length - 1)
      !l.isEmpty && l.all isCharLocal &&
      !d.isEmpty && d.all isCharDominio &&
      tld.all isLetra && decide (2 ≤ tld.length)

/-- A row of the `candidato` table (the columns the authentication logic
reads/writes).  `tentativas_login` and `bloqueado_ate` are nullable. -/
structure Candidato where
  id_candidato : Nat
  nome_candidato : String
  email_candidato : String
  senha : String
  tentativas_login : Option Nat
  bloqueado_ate : Option Nat
  ultimo_login : Option Nat
  ativo : Bool
deriving DecidableEq

/-- `UPDATE candidato ... WHERE id_candidato = id`: applies `f` to every row
with the given id. -/
def updateCandidato (db : List Candidato) (id : Nat) (f : Candidato → Candidato) :
    List Candidato :=
  db.map (fun c => if c.id_candidato == id then f c else c)

/-- `SELECT ... FROM candidato WHERE email_candidato = %s AND ativo = TRUE`
(first matching row, as `fetchone`). -/
def buscarLogin (db : List Candidato) (email : String) : Option Candidato :=
  db.find? (fun c => c.email_candidato == email && c.ativo)

/-- Outcomes of the POST branch of the `login` route, one per `flash`. -/
inductive LoginResult where
  | CamposVazios
  | EmailNaoCadastrado
  | ContaBloqueada (minutos : Nat)
  | Sucesso (nome : String)
  | BloqueioAtivado
  | SenhaIncorreta (tentativas : Nat)
deriving DecidableEq

/-- The user-visible flash message of each login outcome, verbatim from
app.py. -/
def loginFlash : LoginResult → String
  | .CamposVazios => "❌ Preencha todos os campos!"
  | .EmailNaoCadastrado => "❌ Email não cadastrado!"
  | .ContaBloqueada m =>
      "❌ Conta bloqueada. Tente novamente em " ++ toString m ++ " minutos."
  | .Sucesso _ => "✅ Login realizado com sucesso!"
  | .BloqueioAtivado => "❌ Muitas tentativas. Conta bloqueada por 15 minutos."
  | .SenhaIncorreta n =>
      "❌ Senha incorreta! Tentativa " ++ toString n ++ " de 5."

/-- The password-verification tail of the login route: on success reset the
counters and stamp `ultimo_login`; on failure increment `tentativas_login`
(NULL counts as 0) and, when the new count reaches 5, set
`bloqueado_ate = now + 15 minutes` (900 seconds). -/
def verificarEAtualizar (b : Bcrypt) (db : List Candidato) (cand : Candidato)
    (senha : String) (now : Nat) : LoginResult × List Candidato :=
  if verificar_senha b senha cand.senha then
    (.Sucesso cand.nome_candidato,
     updateCandidato db cand.id_candidato (fun c =>
       { c with tentativas_login := some 0, bloqueado_ate := none,
                ultimo_login := some now }))
  else
    let novas := cand.tentativas_login.getD 0 + 1
    if 5 ≤ novas then
      (.BloqueioAtivado,
       updateCandidato db cand.id_candidato (fun c =>
         { c with tentativas_login := some novas,
                  bloqueado_ate := some (now + 900) }))
    else
      (.SenhaIncorreta novas,
       updateCandidato db cand.id_candidato (fun c =>
         { c with tentativas_login := some novas }))

/-- The POST branch of the `login` route of app.py: empty-field check, lookup
by email among active rows, lockout short-circuit (strict
`bloqueado_ate > now`, remaining minutes truncated from seconds), then
password verification and counter update. -/
def login (b : Bcrypt) (db : List Candidato) (email senha : String) (now : Nat) :
    LoginResult × List Candidato :=
  if email = "" || senha = "" then (.CamposVazios, db)
  else
    match buscarLogin db email with
    | none => (.EmailNaoCadastrado, db)
    | some cand =>
      match cand.bloqueado_ate with
      | some ate =>
        if now < ate then (.ContaBloqueada ((ate - now) / 60), db)
        else verificarEAtualizar b db cand senha now
      | none => verificarEAtualizar b db cand senha now

/-- `LOCKED` as a derived predicate: `bloqueado_ate` present and in the
future. -/
def estaBloqueado (c : Candidato) (time : Nat) : Bool :=
  match c.bloqueado_ate with
  | some ate => time < ate
  | none => false

/-- `OPEN` state of the Lockout Policy: `bloqueado_ate` is NULL or not in the
future. -/
def candidatoAberto (cand : Candidato) (now : Nat) : Prop :=
  ∀ t, cand.bloqueado_ate = some t → t ≤ now

/-- The `public_pages` allow-list of the `login_required` decorator. -/
def public_pages : List String :=
  ["login", "cadastro", "health_check", "test_db", "debug_env",
   "recuperar_senha", "resetar_senha"]

/-- The request data the `login_required` decorator reads. -/
structure HttpRequest where
  endpoint : String
  method : String
  form_csrf : Option String
  remote_addr : String
deriving DecidableEq

/-- The Flask session keys written by the application.  A missing key is
`none` (`false` for `logged_in`). -/
structure SessionData where
  usuario_id : Option Nat
  usuario_nome : Option String
  usuario_email : Option String
  logged_in : Bool
  login_time : Option Nat
  csrf_token : Option String
deriving DecidableEq

/-- `session.clear()`: the empty session. -/
def sessaoVazia : SessionData :=
  { usuario_id := none, usuario_nome := none, usuario_email := none,
    logged_in := false, login_time := none, csrf_token := none }

/-- Outcome of the request gate: reach the handler, or redirect with a flash
message to the login page or to the logout route. -/
inductive GateOutcome where
  | Proceed
  | RedirectLogin (flashMsg : String)
  | RedirectLogout (flashMsg : String)
deriving DecidableEq

/-- The CSRF acceptance of `login_required`: the request passes only when the
form token and the session token are both truthy (present and non-empty) and
equal; `not csrf_token or not session_csrf or csrf_token != session_csrf`
rejects. -/
def csrfOk (formTok sessTok : Option String) : Bool :=
  match formTok, sessTok with
  | some f, some s => !(f == "") && !(s == "") && f == s
  | _, _ => false

/-- The POST/CSRF tail of `login_required`: on a non-POST request go through;
on a POST request with a failing CSRF check, log the attempt with the client
IP, flash, and redirect to `logout` (the session is not modified here). -/
def gateCsrf (req : HttpRequest) (s : SessionData) :
    GateOutcome × SessionData × List String :=
  if req.method == "POST" then
    if csrfOk req.form_csrf s.csrf_token then (.Proceed, s, [])
    else
      (.RedirectLogout "Token de segurança inválido. Tente novamente.", s,
       ["Tentativa de CSRF detectada - IP: " ++ req.remote_addr])
  else (.Proceed, s, [])

/-- `login_required` from app.py: public endpoints pass unconditionally;
otherwise require `usuario_id` in the session (else redirect to login),
then the 2-hour absolute expiry check (`now - login_time > 2h` clears the
session and redirects to login), then the CSRF check on POST requests.
Returns (outcome, session after the gate, security log lines). -/
def login_required (req : HttpRequest) (s : SessionData) (now : Nat) :
    GateOutcome × SessionData × List String :=
  if public_pages.contains req.endpoint then (.Proceed, s, [])
  else
    match s.usuario_id with
    | none =>
      (.RedirectLogin "Por favor, faça login para acessar o sistema.", s, [])
    | some _ =>
      match s.login_time with
      | some t =>
        if 7200 < now - t then
          (.RedirectLogin "Sessão expirada. Faça login novamente.",
           sessaoVazia, [])
        else gateCsrf req s
      | none => gateCsrf req s

/-- The `logout` route: logs the departing user's email and IP, clears the
session, flashes, and redirects to the login page. -/
def logout (s : SessionData) (remote_addr : String) :
    SessionData × String × List String :=
  (sessaoVazia, "👋 Você foi desconectado com sucesso.",
   ["Logout: " ++ s.usuario_email.getD "None" ++ " - IP: " ++ remote_addr])

/-- A row of the `recuperacao_senha` table. -/
structure RecuperacaoSenha where
  id_candidato : Nat
  token : String
  data_expiracao : Nat
  usado : Bool
deriving DecidableEq

/-- The POST branch of the `recuperar_senha` route: reject invalid emails,
otherwise look the email up (no `ativo` filter here) and, only when it
exists, insert a token with a 1-hour expiry; the flash message is the same
whether or not the email exists. -/
def recuperar_senha (db : List Candidato) (tokens : List RecuperacaoSenha)
    (email novoToken : String) (now : Nat) : String × List RecuperacaoSenha :=
  if !validar_email email then ("❌ Email inválido!", tokens)
  else
    match db.find? (fun c => c.email_candidato == email) with
    | some u =>
      ("✅ Se o email existir, você receberá instruções para recuperar sua senha.",
       tokens ++ [{ id_candidato := u.id_candidato, token := novoToken,
                    data_expiracao := now + 3600, usado := false }])
    | none =>
      ("✅ Se o email existir, você receberá instruções para recuperar sua senha.",
       tokens)

/-- Outcomes of the POST branch of the `resetar_senha` route. -/
inductive ResetResult where
  | InvalidoOuExpirado
  | SenhasNaoCoincidem
  | SenhaFraca (msg : String)
  | Sucesso
deriving DecidableEq

/-- The token filter of `resetar_senha`:
`token = %s AND data_expiracao > CURRENT_TIMESTAMP AND usado = FALSE`. -/
def tokenValido (tok : String) (now : Nat) (t : RecuperacaoSenha) : Bool :=
  t.token == tok && decide (now < t.data_expiracao) && !t.usado

/-- The POST branch of the `resetar_senha` route: look the token up with the
unused-and-unexpired filter; on no match report the generic invalid/expired
outcome; on a match validate the new password, then update the credential's
hash and mark the token used, committed together. -/
def resetar_senha (b : Bcrypt) (salt : Nat) (db : List Candidato)
    (tokens : List RecuperacaoSenha) (tok senha confirmar : String)
    (now : Nat) : ResetResult × List Candidato × List RecuperacaoSenha :=
  match tokens.find? (tokenValido tok now) with
  | none => (.InvalidoOuExpirado, db, tokens)
  | some t =>
    if senha ≠ confirmar then (.SenhasNaoCoincidem, db, tokens)
    else if !(validar_senha_forte senha).1 then
      (.SenhaFraca (validar_senha_forte senha).2, db, tokens)
    else
      (.Sucesso,
       updateCandidato db t.id_candidato (fun c =>
         { c with senha := hash_senha b salt senha }),
       tokens.map (fun u =>
         if u.token == tok then { u with usado := true } else u))

/-- The strength rules in the spec's fixed order, each paired with its reason
string; the boolean is true when the rule FAILS on the password. -/
def regrasSenha : List ((String → Bool) × String) :=
  [(fun s => decide (s.length < 8), "Senha deve ter no mínimo 8 caracteres"),
   (fun s => !s.toList.any isMaiuscula,
    "Senha deve ter pelo menos uma letra maiúscula"),
   (fun s => !s.toList.any isMinuscula,
    "Senha deve ter pelo menos uma letra minúscula"),
   (fun s => !s.toList.any isDigito, "Senha deve ter pelo menos um número"),
   (fun s => !s.toList.any isEspecial,
    "Senha deve ter pelo menos um caractere especial")]

/-- Modelled from the spec: the reason of the first failing rule, in the
fixed order of `regrasSenha`, to be compared with `validar_senha_forte`. -/
def primeiraRegraFalha (senha : String) : Option String :=
  (regrasSenha.find? (fun r => r.1 senha)).map Prod.snd

/-- A concrete bcrypt model whose digests embed the salt before a comma and
whose `checkpw` re-derives the salt from the digest. -/
def bcryptToy : Bcrypt where
  hashpw := fun p s => String.mk (List.replicate s 's') ++ "," ++ p
  checkpw := fun p h =>
    .ok (h.toList == h.toList.takeWhile (fun c => c ≠ ',') ++ ',' :: p.toList)

/-- A bcrypt model on which every verification fails. -/
def bcryptSempreFalso : Bcrypt where
  hashpw := fun p s => String.mk (List.replicate s 's') ++ "," ++ p
  checkpw := fun _ _ => .ok false

/-- A bcrypt model on which every verification succeeds. -/
def bcryptSempreVerdadeiro : Bcrypt where
  hashpw := fun p s => String.mk (List.replicate s 's') ++ "," ++ p
  checkpw := fun _ _ => .ok true

/-- A bcrypt model whose `checkpw` always raises, as on a malformed stored
digest. -/
def bcryptMalformado : Bcrypt where
  hashpw := fun p s => String.mk (List.replicate s 's') ++ "," ++ p
  checkpw := fun _ _ => .error ()

/-- Concrete active credential record used in witnesses. -/
def candPadrao : Candidato :=
  { id_candidato := 1, nome_candidato := "Alice", email_candidato := "a@x.com",
    senha := "h", tentativas_login := some 0, bloqueado_ate := none,
    ultimo_login := none, ativo := true }

/-- Concrete credential record locked until 30 seconds after the epoch. -/
def candBloqueado : Candidato :=
  { id_candidato := 1, nome_candidato := "Alice", email_candidato := "a@x.com",
    senha := "h", tentativas_login := some 5, bloqueado_ate := some 30,
    ultimo_login := none, ativo := true }

/-- Concrete credential record with a long lockout, used for the reset
frame-condition witness. -/
def candBloqueadoLongo : Candidato :=
  { id_candidato := 5, nome_candidato := "Eva", email_candidato := "e@x.com",
    senha := "h", tentativas_login := some 5, bloqueado_ate := some 100000,
    ultimo_login := none, ativo := true }

/-- Concrete unexpired, unused reset token for `candPadrao`. -/
def tokenReset : RecuperacaoSenha :=
  { id_candidato := 1, token := "t1", data_expiracao := 100, usado := false }

/-- Concrete unexpired, unused reset token for `candBloqueadoLongo`. -/
def tokenReset2 : RecuperacaoSenha :=
  { id_candidato := 5, token := "t2", data_expiracao := 100, usado := false }

/-- Concrete GET request to a protected endpoint. -/
def reqProtegidaGet : HttpRequest :=
  { endpoint := "questionario", method := "GET", form_csrf := none,
    remote_addr := "1.2.3.4" }

/-- Concrete POST request to a protected endpoint carrying a CSRF token that
does not match the session token below. -/
def reqProtegidaPost : HttpRequest :=
  { endpoint := "atualizar_usuario", method := "POST", form_csrf := some "aaa",
    remote_addr := "10.0.0.1" }

/-- Concrete logged-in session whose CSRF token is `bbb`. -/
def sessaoLogada : SessionData :=
  { usuario_id := some 1, usuario_nome := some "Alice",
    usuario_email := some "a@x.com", logged_in := true, login_time := some 0,
    csrf_token := some "bbb" }

/-- C7: `validar_senha_forte` evaluates the rules in the fixed order
length, uppercase, lowercase, digit, symbol; the first failing rule
determines the returned reason, and `"abc12345"` fails with the
missing-uppercase reason. -/
theorem spec_C7 (senha : String) :
    validar_senha_forte senha =
      (match primeiraRegraFalha senha with
       | some m => (false, m)
       | none => (true, "Senha válida"))
    ∧ validar_senha_forte "abc12345" =
      (false, "Senha deve ter pelo menos uma letra maiúscula") := by
  constructor
  · by_cases h1 : senha.length < 8 <;>
    cases h2 : senha.data.any isMaiuscula <;>
    cases h3 : senha.data.any isMinuscula <;>
    cases h4 : senha.data.any isDigito <;>
    cases h5 : senha.data.any isEspecial <;>
    simp [validar_senha_forte, primeiraRegraFalha, regrasSenha, List.find?,
          String.toList, h1, h2, h3, h4, h5]
  · decide

/-- C8: for every plaintext and stored digest, `verificar_senha` returns a
boolean, and when the underlying `bcrypt.checkpw` raises (malformed stored
digest) it returns `false` instead of propagating the exception. -/
theorem spec_C8 (b : Bcrypt) (senha digest : String)
    (hmal : b.checkpw senha digest = .error ()) :
    verificar_senha b senha digest = false
    ∧ (verificar_senha b senha digest = true
       ∨ verificar_senha b senha digest = false) := by
  have h : verificar_senha b senha digest = false := by
    unfold verificar_senha
    rw [hmal]
  exact ⟨h, Or.inr h⟩

/-- Witness for C8 at a bcrypt model whose `checkpw` always raises. -/
theorem spec_C8_witness :
    verificar_senha bcryptMalformado "senha" "digest-quebrado" = false :=
  (spec_C8 bcryptMalformado "senha" "digest-quebrado" rfl).1

/-- C9: verifying a password against the digest produced by hashing it
succeeds, given bcrypt's round-trip contract at that input; and digests
produced with different salts differ, so `hash_senha` is non-deterministic
across calls (the salt is drawn afresh per call). -/
theorem spec_C9 (b : Bcrypt) (p : String) (s1 s2 : Nat)
    (hround : b.checkpw p (b.hashpw p s1) = .ok true)
    (hsalt : b.hashpw p s1 ≠ b.hashpw p s2) :
    verificar_senha b p (hash_senha b s1 p) = true
    ∧ hash_senha b s1 p ≠ hash_senha b s2 p := by
  refine ⟨?_, hsalt⟩
  unfold verificar_senha hash_senha
  rw [hround]

/-- Witness for C9 at a concrete salt-embedding bcrypt model. -/
theorem spec_C9_witness :
    verificar_senha bcryptToy "Senha1!a" (hash_senha bcryptToy 1 "Senha1!a") = true
    ∧ hash_senha bcryptToy 1 "Senha1!a" ≠ hash_senha bcryptToy 2 "Senha1!a" :=
  spec_C9 bcryptToy "Senha1!a" 1 2 rfl (by decide)

/-- C2 (amended): a login attempt against a locked record is rejected with
the remaining minutes rounded down — a value that is 0 when less than a
minute remains, and at most 15 whenever at most 15 minutes remain — with no
change to the store, and the outcome is the same for every password
verifier, so the rejection precedes verification even for the correct
password. -/
theorem spec_C2 (b : Bcrypt) (db : List Candidato) (email senha : String)
    (now ate : Nat) (cand : Candidato)
    (hemail : email ≠ "") (hsenha : senha ≠ "")
    (hfind : buscarLogin db email = some cand)
    (hlock : cand.bloqueado_ate = some ate) (hfut : now < ate) :
    login b db email senha now =
      (LoginResult.ContaBloqueada ((ate - now) / 60), db)
    ∧ (∀ b2 : Bcrypt, login b2 db email senha now = login b db email senha now)
    ∧ (ate - now ≤ 900 → (ate - now) / 60 ≤ 15) := by
  have key : ∀ b2 : Bcrypt, login b2 db email senha now =
      (LoginResult.ContaBloqueada ((ate - now) / 60), db) := by
    intro b2
    simp [login, hemail, hsenha, hfind, hlock, hfut]
  refine ⟨key b, fun b2 => (key b2).trans (key b).symm, fun h => ?_⟩
  have h2 : (ate - now) / 60 ≤ 900 / 60 := Nat.div_le_div_right h
  norm_num at h2
  exact h2

/-- Counterexample to C2 as stated: with 30 seconds of lockout left, the
reported remaining minutes are 0 — not greater than 0 — even though the
supplied password is correct (the verifier always accepts here). -/
theorem spec_C2_counterexample :
    login bcryptSempreVerdadeiro [candBloqueado] "a@x.com" "SenhaCorreta1!" 0 =
      (LoginResult.ContaBloqueada 0, [candBloqueado])
    ∧ loginFlash
        (login bcryptSempreVerdadeiro [candBloqueado] "a@x.com" "SenhaCorreta1!" 0).1 =
      "❌ Conta bloqueada. Tente novamente em 0 minutos." := by
  constructor <;> decide

/-- Witness for C2 applying the theorem one second before the lock expires. -/
theorem spec_C2_witness :
    login bcryptSempreVerdadeiro [candBloqueado] "a@x.com" "SenhaCorreta1!" 29 =
      (LoginResult.ContaBloqueada 0, [candBloqueado]) :=
  (spec_C2 bcryptSempreVerdadeiro [candBloqueado] "a@x.com" "SenhaCorreta1!"
    29 30 candBloqueado (by decide) (by decide) (by decide) (by decide)
    (by decide)).1

/-- C6 (amended): on a protected endpoint both the absent-session case and
the expired-session case redirect to the login page with a notice and the
handler is not reached, but the notices differ between the two cases, so an
observer can tell which occurred. -/
theorem spec_C6 (req : HttpRequest) (s : SessionData) (now : Nat)
    (hprot : public_pages.contains req.endpoint = false) :
    (s.usuario_id = none →
      login_required req s now =
        (GateOutcome.RedirectLogin "Por favor, faça login para acessar o sistema.",
         s, []))
    ∧ (∀ uid t, s.usuario_id = some uid → s.login_time = some t →
        7200 < now - t →
        login_required req s now =
          (GateOutcome.RedirectLogin "Sessão expirada. Faça login novamente.",
           sessaoVazia, []))
    ∧ (∀ m : String, GateOutcome.RedirectLogin m ≠ GateOutcome.Proceed)
    ∧ "Por favor, faça login para acessar o sistema." ≠
        "Sessão expirada. Faça login novamente." := by
  have hp : req.endpoint ∉ public_pages := by simpa using hprot
  refine ⟨?_, ?_, fun m h => GateOutcome.noConfusion h, by decide⟩
  · intro h
    simp [login_required, hp, h]
  · intro uid t h1 h2 h3
    simp [login_required, hp, h1, h2, h3]

/-- Counterexample to C6 as stated: the absent-session notice and the
expired-session notice are different strings, so the two cases are
observably distinct. -/
theorem spec_C6_counterexample :
    (login_required reqProtegidaGet sessaoVazia 8000).1 =
      GateOutcome.RedirectLogin "Por favor, faça login para acessar o sistema."
    ∧ (login_required reqProtegidaGet
        { sessaoLogada with login_time := some 0 } 8000).1 =
      GateOutcome.RedirectLogin "Sessão expirada. Faça login novamente."
    ∧ "Por favor, faça login para acessar o sistema." ≠
        "Sessão expirada. Faça login novamente." := by
  refine ⟨by decide, by decide, by decide⟩

/-- Witness for C6 applying the amended theorem to a concrete expired
session. -/
theorem spec_C6_witness :
    login_required reqProtegidaGet sessaoLogada 8000 =
      (GateOutcome.RedirectLogin "Sessão expirada. Faça login novamente.",
       sessaoVazia, []) :=
  (spec_C6 reqProtegidaGet sessaoLogada 8000 (by decide)).2.1 1 0
    (by decide) (by decide) (by decide)

/-- C5 (amended): the password-reset request flow's user-visible message is
independent of the credential store, so it never reveals registration; but
the login flow answers an unknown email with its own dedicated outcome
(`Email não cadastrado`), distinguishable from the wrong-password outcome,
so the registration collision message is not the sole exception. -/
theorem spec_C5 (db db2 : List Candidato) (tokens tokens2 : List RecuperacaoSenha)
    (email novoToken novoToken2 : String) (now now2 : Nat) :
    (recuperar_senha db tokens email novoToken now).1 =
      (recuperar_senha db2 tokens2 email novoToken2 now2).1
    ∧ (∀ b senha now3, email ≠ "" → senha ≠ "" → buscarLogin db email = none →
        (login b db email senha now3).1 = LoginResult.EmailNaoCadastrado) := by
  constructor
  · unfold recuperar_senha
    by_cases h : validar_email email
    · cases h1 : db.find? (fun c => c.email_candidato == email) <;>
      cases h2 : db2.find? (fun c => c.email_candidato == email) <;>
      simp [h, h1, h2]
    · simp [h]
  · intro b senha now3 hemail hsenha hfind
    simp [login, hemail, hsenha, hfind]

/-- Counterexample to C5 as stated: two login requests differing only in
whether the email is registered produce different user-visible messages
(unknown email versus known email with a wrong password). -/
theorem spec_C5_counterexample :
    loginFlash (login bcryptSempreFalso [] "a@x.com" "senha123" 0).1 ≠
    loginFlash (login bcryptSempreFalso [candPadrao] "a@x.com" "senha123" 0).1 := by
  decide

/-- Witness for C5 applying the amended theorem to an empty credential
store. -/
theorem spec_C5_witness :
    (login bcryptSempreFalso [] "a@x.com" "senha123" 0).1 =
      LoginResult.EmailNaoCadastrado :=
  (spec_C5 [] [candPadrao] [] [] "a@x.com" "nt" "nt" 0 0).2 bcryptSempreFalso
    "senha123" 0 (by decide) (by decide) (by decide)

/-- C1: on an existing, active, non-locked credential record, a failed
verification increments `tentativas_login` by exactly 1 (NULL counting as 0)
and sets `bloqueado_ate = now + 15 minutes` exactly when the new count
reaches the threshold 5, leaving `bloqueado_ate` untouched otherwise; a
successful verification resets the counter to 0 and clears `bloqueado_ate`;
and a `Sucesso` outcome is only reachable from the non-locked state, because
the lock check precedes verification. -/
theorem spec_C1 (b : Bcrypt) (db : List Candidato) (email senha : String)
    (now : Nat) (cand : Candidato)
    (hemail : email ≠ "") (hsenha : senha ≠ "")
    (hfind : buscarLogin db email = some cand) :
    (candidatoAberto cand now → verificar_senha b senha cand.senha = false →
      login b db email senha now =
        (if 5 ≤ cand.tentativas_login.getD 0 + 1 then
          (LoginResult.BloqueioAtivado,
           updateCandidato db cand.id_candidato (fun c =>
             { c with tentativas_login := some (cand.tentativas_login.getD 0 + 1),
                      bloqueado_ate := some (now + 900) }))
         else
          (LoginResult.SenhaIncorreta (cand.tentativas_login.getD 0 + 1),
           updateCandidato db cand.id_candidato (fun c =>
             { c with tentativas_login := some (cand.tentativas_login.getD 0 + 1) }))))
    ∧ (candidatoAberto cand now → verificar_senha b senha cand.senha = true →
      login b db email senha now =
        (LoginResult.Sucesso cand.nome_candidato,
         updateCandidato db cand.id_candidato (fun c =>
           { c with tentativas_login := some 0, bloqueado_ate := none,
                    ultimo_login := some now })))
    ∧ (∀ nome db2, login b db email senha now = (LoginResult.Sucesso nome, db2) →
        candidatoAberto cand now) := by
  have hopenEq : candidatoAberto cand now →
      login b db email senha now = verificarEAtualizar b db cand senha now := by
    intro hopen
    cases hb : cand.bloqueado_ate with
    | none => simp [login, hemail, hsenha, hfind, hb]
    | some ate =>
      have hnl : ¬ now < ate := Nat.not_lt.mpr (hopen ate hb)
      simp [login, hemail, hsenha, hfind, hb, hnl]
  refine ⟨?_, ?_, ?_⟩
  · intro hopen hver
    rw [hopenEq hopen]
    unfold verificarEAtualizar
    rw [hver]
    by_cases hc : 5 ≤ cand.tentativas_login.getD 0 + 1 <;> simp [hc]
  · intro hopen hver
    rw [hopenEq hopen]
    unfold verificarEAtualizar
    rw [hver]
    simp
  · intro nome db2 hres t hbt
    by_contra hle
    have hfut : now < t := Nat.lt_of_not_le hle
    have hcb : login b db email senha now =
        (LoginResult.ContaBloqueada ((t - now) / 60), db) := by
      simp [login, hemail, hsenha, hfind, hbt, hfut]
    rw [hcb] at hres
    simp at hres

/-- Witness for C1: a failed attempt on a record with no prior failures
increments the counter to 1 and does not lock. -/
theorem spec_C1_witness :
    login bcryptSempreFalso [candPadrao] "a@x.com" "errada" 0 =
      (LoginResult.SenhaIncorreta 1,
       [{ candPadrao with tentativas_login := some 1 }]) := by
  have h := (spec_C1 bcryptSempreFalso [candPadrao] "a@x.com" "errada" 0
    candPadrao (by decide) (by decide) (by decide)).1
    (fun t ht => by simp [candPadrao] at ht) (by decide)
  rw [h]
  decide

/-- C3: a POST request to a protected endpoint, with a live non-expired
session, whose CSRF token is absent or differs from the session token, is
logged with the client's network origin and redirected to `logout` without
reaching the handler; following that redirect clears the whole session; and
the outcome is a `RedirectLogout`, distinct from the `RedirectLogin` of the
session-expiry path. -/
theorem spec_C3 (req : HttpRequest) (s : SessionData) (now uid : Nat)
    (hprot : public_pages.contains req.endpoint = false)
    (hpost : req.method = "POST")
    (huid : s.usuario_id = some uid)
    (hexp : ∀ t, s.login_time = some t → now - t ≤ 7200)
    (hcsrf : req.form_csrf = none ∨ req.form_csrf ≠ s.csrf_token) :
    login_required req s now =
      (GateOutcome.RedirectLogout "Token de segurança inválido. Tente novamente.",
       s, ["Tentativa de CSRF detectada - IP: " ++ req.remote_addr])
    ∧ (login_required req s now).1 ≠ GateOutcome.Proceed
    ∧ (logout (login_required req s now).2.1 req.remote_addr).1 = sessaoVazia
    ∧ sessaoVazia.usuario_id = none ∧ sessaoVazia.csrf_token = none
    ∧ (∀ m : String,
        GateOutcome.RedirectLogout "Token de segurança inválido. Tente novamente." ≠
          GateOutcome.RedirectLogin m) := by
  have hp : req.endpoint ∉ public_pages := by simpa using hprot
  have hok : csrfOk req.form_csrf s.csrf_token = false := by
    cases hf : req.form_csrf with
    | none => cases hs : s.csrf_token <;> rfl
    | some f =>
      cases hs : s.csrf_token with
      | none => rfl
      | some g =>
        rcases hcsrf with h | h
        · rw [hf] at h
          exact Option.noConfusion h
        · rw [hf, hs] at h
          have hne : f ≠ g := fun e => h (congrArg some e)
          simp [csrfOk, hne]
  have hmain : login_required req s now =
      (GateOutcome.RedirectLogout "Token de segurança inválido. Tente novamente.",
       s, ["Tentativa de CSRF detectada - IP: " ++ req.remote_addr]) := by
    cases ht : s.login_time with
    | none => simp [login_required, hp, huid, ht, gateCsrf, hpost, hok]
    | some t =>
      have hle := hexp t ht
      have hne : ¬ 7200 < now - t := Nat.not_lt.mpr hle
      simp [login_required, hp, huid, ht, hne, gateCsrf, hpost, hok]
  refine ⟨hmain, ?_, ?_, rfl, rfl, fun m h => GateOutcome.noConfusion h⟩
  · rw [hmain]
    simp
  · rw [hmain]
    rfl

/-- Witness for C3 at a concrete protected POST request whose form token
`aaa` differs from the session token `bbb`. -/
theorem spec_C3_witness :
    login_required reqProtegidaPost sessaoLogada 100 =
      (GateOutcome.RedirectLogout "Token de segurança inválido. Tente novamente.",
       sessaoLogada, ["Tentativa de CSRF detectada - IP: 10.0.0.1"]) :=
  (spec_C3 reqProtegidaPost sessaoLogada 100 1 (by decide) rfl rfl
    (fun t ht => by simp [sessaoLogada] at ht; omega)
    (Or.inr (by decide))).1

/-- C4: the reset-token lookup accepts a token only when it is unused and
strictly unexpired; on a match the credential's hash update and the token's
used flag are committed in the same step; redeeming the same token again —
at any later time, with any inputs — yields the generic invalid-or-expired
outcome with no state change; and with no matching token the outcome is
invalid-or-expired with no state change. -/
theorem spec_C4 (b : Bcrypt) (salt : Nat) (db : List Candidato)
    (tokens : List RecuperacaoSenha) (tok senha senha2 conf2 : String)
    (now now2 : Nat) (t : RecuperacaoSenha)
    (hfind : tokens.find? (tokenValido tok now) = some t)
    (hforte : (validar_senha_forte senha).1 = true) :
    t.usado = false ∧ now < t.data_expiracao ∧ t.token = tok
    ∧ resetar_senha b salt db tokens tok senha senha now =
        (ResetResult.Sucesso,
         updateCandidato db t.id_candidato (fun c =>
           { c with senha := hash_senha b salt senha }),
         tokens.map (fun u =>
           if u.token == tok then { u with usado := true } else u))
    ∧ (∀ u ∈ tokens.map (fun u =>
          if u.token == tok then { u with usado := true } else u),
        u.token = tok → u.usado = true)
    ∧ resetar_senha b salt
        (updateCandidato db t.id_candidato (fun c =>
          { c with senha := hash_senha b salt senha }))
        (tokens.map (fun u =>
          if u.token == tok then { u with usado := true } else u))
        tok senha2 conf2 now2 =
        (ResetResult.InvalidoOuExpirado,
         updateCandidato db t.id_candidato (fun c =>
           { c with senha := hash_senha b salt senha }),
         tokens.map (fun u =>
           if u.token == tok then { u with usado := true } else u))
    ∧ (∀ tokens3 : List RecuperacaoSenha,
        tokens3.find? (tokenValido tok now) = none →
        resetar_senha b salt db tokens3 tok senha senha now =
          (ResetResult.InvalidoOuExpirado, db, tokens3)) := by
  have hp := List.find?_some hfind
  unfold tokenValido at hp
  simp only [Bool.and_eq_true, beq_iff_eq, decide_eq_true_eq,
    Bool.not_eq_true'] at hp
  obtain ⟨⟨htok, hexp2⟩, husado⟩ := hp
  have hmarked : ∀ u ∈ tokens.map (fun u =>
      if u.token == tok then { u with usado := true } else u),
      u.token = tok → u.usado = true := by
    intro u hu htk
    obtain ⟨v, hv, rfl⟩ := List.mem_map.mp hu
    by_cases hvt : v.token == tok
    · simp [hvt]
    · simp [hvt] at htk ⊢
      exact absurd (beq_iff_eq.mpr htk) hvt
  have hsuc : resetar_senha b salt db tokens tok senha senha now =
      (ResetResult.Sucesso,
       updateCandidato db t.id_candidato (fun c =>
         { c with senha := hash_senha b salt senha }),
       tokens.map (fun u =>
         if u.token == tok then { u with usado := true } else u)) := by
    unfold resetar_senha
    rw [hfind]
    simp [hforte]
  have hnone2 : (tokens.map (fun u =>
      if u.token == tok then { u with usado := true } else u)).find?
      (tokenValido tok now2) = none := by
    rw [List.find?_eq_none]
    intro x hx
    obtain ⟨v, hv, rfl⟩ := List.mem_map.mp hx
    by_cases hvt : v.token == tok
    · simp [tokenValido, hvt]
    · simp [tokenValido, hvt]
  refine ⟨husado, hexp2, htok, hsuc, hmarked, ?_, ?_⟩
  · unfold resetar_senha
    rw [hnone2]
  · intro tokens3 h3
    unfold resetar_senha
    rw [h3]

/-- Witness for C4: a concrete successful redemption updates the hash and
marks the token used together. -/
theorem spec_C4_witness :
    resetar_senha bcryptToy 1 [candPadrao] [tokenReset] "t1" "Senha1!a"
        "Senha1!a" 0 =
      (ResetResult.Sucesso,
       [{ candPadrao with senha := "s,Senha1!a" }],
       [{ tokenReset with usado := true }]) := by
  have h := (spec_C4 bcryptToy 1 [candPadrao] [tokenReset] "t1" "Senha1!a"
    "x" "y" 0 50 tokenReset (by decide) (by decide)).2.2.2.1
  rw [h]
  decide

/-- C10: a successful reset redemption changes only the credential's `senha`
and the token's `usado` flag: every row keeps its `tentativas_login` and
`bloqueado_ate`, its lockout status at every instant is unchanged (a locked
account stays locked), and rows not owned by the token are untouched. -/
theorem spec_C10 (b : Bcrypt) (salt : Nat) (db : List Candidato)
    (tokens : List RecuperacaoSenha) (tok senha : String) (now : Nat)
    (t : RecuperacaoSenha)
    (hfind : tokens.find? (tokenValido tok now) = some t)
    (hforte : (validar_senha_forte senha).1 = true) :
    (resetar_senha b salt db tokens tok senha senha now).1 = ResetResult.Sucesso
    ∧ (resetar_senha b salt db tokens tok senha senha now).2.1.length = db.length
    ∧ ∀ i : Nat,
        ((resetar_senha b salt db tokens tok senha senha now).2.1[i]?).map
            Candidato.tentativas_login = (db[i]?).map Candidato.tentativas_login
        ∧ ((resetar_senha b salt db tokens tok senha senha now).2.1[i]?).map
            Candidato.bloqueado_ate = (db[i]?).map Candidato.bloqueado_ate
        ∧ (∀ time : Nat,
            ((resetar_senha b salt db tokens tok senha senha now).2.1[i]?).map
              (fun c => estaBloqueado c time) =
            (db[i]?).map (fun c => estaBloqueado c time))
        ∧ (∀ c : Candidato, db[i]? = some c →
            c.id_candidato ≠ t.id_candidato →
            (resetar_senha b salt db tokens tok senha senha now).2.1[i]? = some c) := by
  have hdb : (resetar_senha b salt db tokens tok senha senha now).2.1 =
      updateCandidato db t.id_candidato (fun c =>
        { c with senha := hash_senha b salt senha }) := by
    unfold resetar_senha
    rw [hfind]
    simp [hforte]
  have hres : (resetar_senha b salt db tokens tok senha senha now).1 =
      ResetResult.Sucesso := by
    unfold resetar_senha
    rw [hfind]
    simp [hforte]
  refine ⟨hres, ?_, ?_⟩
  · rw [hdb]
    unfold updateCandidato
    exact List.length_map _ _
  · intro i
    rw [hdb]
    unfold updateCandidato
    rw [List.getElem?_map]
    cases hc : db[i]? with
    | none => simp
    | some c =>
      refine ⟨?_, ?_, fun time => ?_, fun c2 hc2 hne => ?_⟩
      · by_cases hid : c.id_candidato = t.id_candidato <;> simp [hid]
      · by_cases hid : c.id_candidato = t.id_candidato <;> simp [hid]
      · by_cases hid : c.id_candidato = t.id_candidato <;>
          simp [hid, estaBloqueado]
      · have hcc : c2 = c := (Option.some.inj hc2).symm
        subst hcc
        simp [hne]

/-- Witness for C10: resetting the password of a locked account leaves it
locked. -/
theorem spec_C10_witness :
    ((resetar_senha bcryptToy 1 [candBloqueadoLongo] [tokenReset2] "t2"
        "Senha1!a" "Senha1!a" 0).2.1[0]?).map
      (fun c => estaBloqueado c 50000) = some true := by
  have h := ((spec_C10 bcryptToy 1 [candBloqueadoLongo] [tokenReset2] "t2"
    "Senha1!a" 0 tokenReset2 (by decide) (by decide)).2.2 0).2.2.1 50000
  rw [h]
  decide

end FaseFinal
